import Mathlib

/-!
Verification of the Happy Hotels booking-draft reconciliation and
confirmation protocol, shallowly embedded from the chat turn handler
(the Next.js `POST` route) and the record-store create route.

JSON scalar values are modelled by `Value`; a JS object is modelled as a
partial map `Draft` from field names to values (`none` = absent key).
The language-model completion call and the record store are external
collaborators: they enter the turn function as oracles, so the theorems
quantify over every possible behaviour of both.
-/

namespace HappyHotels

/-- A JSON scalar value as the chat route's checks distinguish them:
string, number, boolean, or null. -/
inductive Value where
  | vStr (s : String)
  | vNum (n : Int)
  | vBool (b : Bool)
  | vNull
deriving DecidableEq

/-- A JS object: a partial map from field name to value.
An absent key is `none` (JS `undefined`). -/
def Draft : Type := String → Option Value

/-- The empty object `{}`. -/
def emptyDraft : Draft := fun _ => none

/-- Build a draft from an association list (first binding wins). -/
def draftOfList (l : List (String × Value)) : Draft := fun k => l.lookup k

/-- `typeof v === "string"`. -/
def Value.isStringTy : Value → Bool
  | .vStr _ => true
  | _ => false

/-- `typeof v === "number"`. -/
def Value.isNumberTy : Value → Bool
  | .vNum _ => true
  | _ => false

/-- `typeof v === "boolean"`. -/
def Value.isBooleanTy : Value → Bool
  | .vBool _ => true
  | _ => false

/-- JS whitespace characters removed by `String.prototype.trim`
(the ASCII ones; the route only ever meets these). -/
def isWsChar (c : Char) : Bool :=
  c == ' ' || c == '\t' || c == '\n' || c == '\r' || c == '\x0b' || c == '\x0c'

/-- Strip leading and trailing whitespace from a character list. -/
def trimChars (l : List Char) : List Char :=
  ((l.dropWhile isWsChar).reverse.dropWhile isWsChar).reverse

/-- JS `s.trim()`. -/
def jsTrim (s : String) : String := ⟨trimChars s.data⟩

/-- Lower-case one ASCII character (JS `toLowerCase` on the route's data). -/
def lowerChar (c : Char) : Char :=
  if 'A' ≤ c && c ≤ 'Z' then Char.ofNat (c.toNat + 32) else c

/-- JS `s.toLowerCase()` (ASCII). -/
def jsToLower (s : String) : String := ⟨s.data.map lowerChar⟩

/-- Does `needle` occur at the head of `hay`? -/
def leadsWith : List Char → List Char → Bool
  | [], _ => true
  | _ :: _, [] => false
  | a :: as, b :: bs => a == b && leadsWith as bs

/-- Does `needle` occur anywhere in `hay`? -/
def hasSubstringChars (needle : List Char) : List Char → Bool
  | [] => needle.isEmpty
  | c :: rest => leadsWith needle (c :: rest) || hasSubstringChars needle rest

/-- JS `hay.includes(needle)`. -/
def jsIncludes (hay needle : String) : Bool := hasSubstringChars needle.data hay.data

/-- `REQUIRED_FIELDS` from the chat route: the 22 required booking fields,
in catalog order. -/
def REQUIRED_FIELDS : List String := [
  "hotel",
  "lead_time",
  "arrival_date_year",
  "arrival_date_month",
  "arrival_date_week_number",
  "arrival_date_day_of_month",
  "stays_in_weekend_nights",
  "stays_in_week_nights",
  "adults",
  "children",
  "babies",
  "meal",
  "country",
  "market_segment",
  "is_repeated_guest",
  "reserved_room_type",
  "customer_type",
  "adr",
  "required_car_parking_spaces",
  "total_of_special_requests",
  "reservation_status",
  "reservation_status_date"
]

/-- `MONTH_NAMES` from the chat route. -/
def MONTH_NAMES : List String := [
  "january",
  "february",
  "march",
  "april",
  "may",
  "june",
  "july",
  "august",
  "september",
  "october",
  "november",
  "december"
]

/-- `NUMBER_FIELDS` from the chat route. -/
def NUMBER_FIELDS : List String := [
  "lead_time",
  "arrival_date_year",
  "arrival_date_week_number",
  "arrival_date_day_of_month",
  "stays_in_weekend_nights",
  "stays_in_week_nights",
  "adults",
  "children",
  "babies",
  "adr",
  "required_car_parking_spaces",
  "total_of_special_requests"
]

/-- `BOOLEAN_FIELDS` from the chat route. -/
def BOOLEAN_FIELDS : List String := ["is_repeated_guest"]

/-- `FIELD_LABELS` from the chat route. -/
def FIELD_LABELS : List (String × String) := [
  ("hotel", "hotel (City Hotel or Resort Hotel)"),
  ("lead_time", "lead time (days before arrival)"),
  ("arrival_date_year", "arrival year (YYYY)"),
  ("arrival_date_month", "arrival month (full name, e.g. January)"),
  ("arrival_date_week_number", "arrival week number (1-53)"),
  ("arrival_date_day_of_month", "arrival day of month (1-31)"),
  ("stays_in_weekend_nights", "weekend nights"),
  ("stays_in_week_nights", "week nights"),
  ("adults", "number of adults"),
  ("children", "number of children"),
  ("babies", "number of babies"),
  ("meal", "meal plan (BB, HB, FB, SC, or empty)"),
  ("country", "country code (2-3 letters)"),
  ("market_segment", "market segment (Corporate, Direct, Groups, Online TA)"),
  ("is_repeated_guest", "repeat guest (true/false)"),
  ("reserved_room_type", "room type (A-H)"),
  ("customer_type", "customer type (Transient, Contract, Group, Other)"),
  ("adr", "average daily rate (ADR)"),
  ("required_car_parking_spaces", "required parking spaces"),
  ("total_of_special_requests", "total special requests"),
  ("reservation_status", "reservation status (Checked-In, Canceled, No-Show)"),
  ("reservation_status_date", "reservation status date (YYYY-MM-DD)")
]

/-- `FIELD_LABELS[field] ?? field`. -/
def fieldLabel (field : String) : String := (FIELD_LABELS.lookup field).getD field

/-- Is `v` a string whose trim is empty? -/
def isEmptyStringValue : Value → Bool
  | .vStr s => jsTrim s == ""
  | _ => false

/-- Is `v` a string that fails the canonical-month test?
(Non-strings are not tested by this rule.) -/
def isNonCanonicalMonthString : Value → Bool
  | .vStr s => !(MONTH_NAMES.contains (jsToLower (jsTrim s)))
  | _ => false

/-- The predicate of the `filter` inside `getMissingFields`, transliterated
clause by clause from the route (`undefined`/`null` first, then the
empty-string, number, boolean and month checks). -/
def fieldIsMissing (field : String) (value : Option Value) : Bool :=
  match value with
  | none => true
  | some .vNull => true
  | some v =>
    if isEmptyStringValue v then true
    else if NUMBER_FIELDS.contains field && !v.isNumberTy then true
    else if BOOLEAN_FIELDS.contains field && !v.isBooleanTy then true
    else if field == "arrival_date_month" && v.isStringTy then isNonCanonicalMonthString v
    else false

/-- `getMissingFields(draft)` from the chat route: a `null` draft is
replaced by `{}`, then the required fields are filtered in catalog order. -/
def getMissingFields (draft : Option Draft) : List String :=
  let data := draft.getD emptyDraft
  REQUIRED_FIELDS.filter (fun field => fieldIsMissing field (data field))

/-- Modelled from the spec's words (refinement comparison for C2):
a field counts as missing if absent, null, an empty/whitespace-only string,
a non-number for one of the numeric fields, a non-boolean for the boolean
field, or — for the month field — a string that does not case-insensitively
(after trimming) match one of the twelve canonical month names. -/
def specFieldMissing (field : String) (value : Option Value) : Bool :=
  value.isNone
  || (match value with | some .vNull => true | _ => false)
  || (match value with | some (.vStr s) => jsTrim s == "" | _ => false)
  || (NUMBER_FIELDS.contains field
        && !(match value with | some (.vNum _) => true | _ => false))
  || (BOOLEAN_FIELDS.contains field
        && !(match value with | some (.vBool _) => true | _ => false))
  || (field == "arrival_date_month"
        && (match value with
            | some (.vStr s) => !(MONTH_NAMES.contains (jsToLower (jsTrim s)))
            | _ => false))

/-- `{ ...base, ...delta }`: a shallow merge, the delta's keys override. -/
def mergeDraft (base delta : Draft) : Draft :=
  fun k => match delta k with
  | some v => some v
  | none => base k

lemma fieldIsMissing_eq_spec (field : String) (value : Option Value) :
    fieldIsMissing field value = specFieldMissing field value := by
  cases value with
  | none => rfl
  | some v =>
    cases v with
    | vNull => rfl
    | vStr s =>
      simp only [fieldIsMissing, specFieldMissing, isEmptyStringValue,
        isNonCanonicalMonthString, Value.isStringTy, Value.isNumberTy,
        Value.isBooleanTy, Option.isNone, Bool.not_false, Bool.and_true,
        Bool.false_or]
      cases hb1 : (jsTrim s == "") <;>
        cases hb2 : NUMBER_FIELDS.contains field <;>
        cases hb3 : BOOLEAN_FIELDS.contains field <;>
        cases hb4 : (field == "arrival_date_month") <;>
        simp [hb1, hb2, hb3, hb4]
    | vNum n =>
      simp only [fieldIsMissing, specFieldMissing, isEmptyStringValue,
        isNonCanonicalMonthString, Value.isStringTy, Value.isNumberTy,
        Value.isBooleanTy, Option.isNone, Bool.not_true, Bool.not_false,
        Bool.and_false, Bool.and_true, Bool.false_or, Bool.or_false]
      cases hb3 : BOOLEAN_FIELDS.contains field <;> simp [hb3]
    | vBool b =>
      simp only [fieldIsMissing, specFieldMissing, isEmptyStringValue,
        isNonCanonicalMonthString, Value.isStringTy, Value.isNumberTy,
        Value.isBooleanTy, Option.isNone, Bool.not_true, Bool.not_false,
        Bool.and_false, Bool.and_true, Bool.false_or, Bool.or_false]
      cases hb2 : NUMBER_FIELDS.contains field <;> simp [hb2]

/-- C2: `getMissingFields` reports, in catalog order, exactly the required
fields whose value is absent, null, an empty/whitespace-only string, a
non-number for a numeric field, a non-boolean for the boolean field, or a
non-canonical month string for `arrival_date_month`; every other field is
reported present, with no coercion of mismatched types. -/
theorem c2_missing_fields_spec (d : Draft) :
    getMissingFields (some d) =
      REQUIRED_FIELDS.filter (fun field => specFieldMissing field (d field)) := by
  show REQUIRED_FIELDS.filter (fun field => fieldIsMissing field (d field)) = _
  have h : (fun field => fieldIsMissing field (d field)) =
      (fun field => specFieldMissing field (d field)) :=
    funext fun field => fieldIsMissing_eq_spec field (d field)
  rw [h]

/-- C9: a null/absent incoming draft is treated as the empty draft, so the
full catalog of 22 required field names is reported, in order, and the
call does not fail. -/
theorem c9_null_draft :
    getMissingFields none = REQUIRED_FIELDS ∧ REQUIRED_FIELDS.length = 22 := by
  constructor
  · rfl
  · rfl

/-- C10: the canonical-month test applies only to string values; for any
draft whose `arrival_date_month` holds a non-null, non-string value, the
field is not reported missing. -/
theorem c10_month_non_string (d : Draft) (v : Value)
    (hv : d "arrival_date_month" = some v)
    (hs : v.isStringTy = false)
    (hn : v ≠ .vNull) :
    "arrival_date_month" ∉ getMissingFields (some d) := by
  intro hmem
  have hnum : NUMBER_FIELDS.contains "arrival_date_month" = false := by decide
  have hbool : BOOLEAN_FIELDS.contains "arrival_date_month" = false := by decide
  rw [getMissingFields] at hmem
  simp only [Option.getD] at hmem
  rw [List.mem_filter] at hmem
  have hflt := hmem.2
  rw [hv] at hflt
  cases v with
  | vStr s => simp [Value.isStringTy] at hs
  | vNull => exact hn rfl
  | vNum n =>
    simp [fieldIsMissing, isEmptyStringValue, Value.isNumberTy,
      Value.isBooleanTy, Value.isStringTy, hnum, hbool] at hflt
    exact absurd hflt (by decide)
  | vBool b =>
    simp [fieldIsMissing, isEmptyStringValue, Value.isNumberTy,
      Value.isBooleanTy, Value.isStringTy, hnum, hbool] at hflt
    exact absurd hflt (by decide)

/-- The draft used to witness C10: month given as the number 8. -/
def c10wDraft : Draft :=
  draftOfList [("arrival_date_month", .vNum 8)]

/-- C10 witness: with the month supplied as the number 8, the month field
is not reported missing. -/
theorem c10_month_non_string_witness :
    "arrival_date_month" ∉ getMissingFields (some c10wDraft) :=
  c10_month_non_string c10wDraft (.vNum 8) rfl rfl (by decide)

/-- C8: merging the same delta twice equals merging it once, and the merge
is a shallow per-field overwrite: a field present in the delta takes the
delta's value, a field absent from the delta keeps the base's value. -/
theorem c8_merge_idempotent (d p : Draft) :
    mergeDraft (mergeDraft d p) p = mergeDraft d p ∧
    (∀ k v, p k = some v → mergeDraft d p k = some v) ∧
    (∀ k, p k = none → mergeDraft d p k = d k) := by
  refine ⟨funext fun k => ?_, fun k v hk => ?_, fun k hk => ?_⟩
  · cases hpk : p k <;> simp [mergeDraft, hpk]
  · simp [mergeDraft, hk]
  · simp [mergeDraft, hk]

/-- Base draft for the C8 witness. -/
def c8wBase : Draft :=
  draftOfList [("hotel", .vStr "City Hotel"), ("adults", .vNum 1)]

/-- Delta draft for the C8 witness. -/
def c8wDelta : Draft :=
  draftOfList [("adults", .vNum 3)]

/-- C8 witness: on a concrete draft and delta, the delta's field is
overwritten and the untouched field survives. -/
theorem c8_merge_idempotent_witness :
    mergeDraft c8wBase c8wDelta "adults" = some (.vNum 3) ∧
    mergeDraft c8wBase c8wDelta "hotel" = some (.vStr "City Hotel") :=
  ⟨(c8_merge_idempotent c8wBase c8wDelta).2.1 "adults" (.vNum 3) rfl,
   (c8_merge_idempotent c8wBase c8wDelta).2.2 "hotel" rfl⟩

/-! ## The conversation turn controller (`POST` handler of the chat route) -/

/-- One entry of the incoming `messages` array. -/
structure ChatMessage where
  role : String
  content : String

/-- `body.messages.at(-1)?.content ?? ""`. -/
def latestUtterance (messages : List ChatMessage) : String :=
  match messages.getLast? with
  | some m => m.content
  | none => ""

/-- `latestUser.toLowerCase().includes("confirm")`. -/
def hasConfirmToken (utterance : String) : Bool :=
  jsIncludes (jsToLower utterance) "confirm"

/-- JS truthiness of a scalar value. -/
def jsTruthy : Value → Bool
  | .vStr s => s != ""
  | .vNum n => n != 0
  | .vBool b => b
  | .vNull => false

/-- JS template-literal stringification of a scalar value. -/
def jsToString : Value → String
  | .vStr s => s
  | .vNum n => toString n
  | .vBool b => if b then "true" else "false"
  | .vNull => "null"

/-- `buildMissingMessage(missingFields, booking)` from the chat route. -/
def buildMissingMessage (missingFields : List String) (booking : Option Draft) : String :=
  let introLine :=
    match booking with
    | some b =>
      match b "hotel" with
      | some v =>
        if jsTruthy v then "I can start a " ++ jsToString v ++ " booking."
        else "I can start your booking."
      | none => "I can start your booking."
    | none => "I can start your booking."
  let lines := missingFields.map (fun field => "- " ++ fieldLabel field)
  introLine ++ " To complete it, please provide:\n" ++ String.intercalate "\n" lines

/-- `typeof v === "string"`: the string payload if `v` is a string. -/
def stringIdOf : Option Value → Option String
  | some (.vStr s) => some s
  | _ => none

/-- `const { id, ...patch } = booking`: the draft with the `id` key removed. -/
def removeId (b : Draft) : Draft := fun k => if k == "id" then none else b k

/-- `["create_booking", "update_booking"].includes(name)`. -/
def isMutatingName (name : String) : Bool :=
  name == "create_booking" || name == "update_booking"

/-- A model-proposed tool call: the tool name plus the projections of its
parsed JSON arguments the route reads (`args.payload`, `args.id`,
`args.patch`). -/
structure ToolCall where
  name : String
  payload : Option Draft
  id : Option String
  patch : Option Draft

/-- The result of `extractJson` on a model content message: the `message`,
`draft` and `missing_fields` keys (each possibly absent). -/
structure ContentData where
  message : Option String
  draft : Option Draft
  missing_fields : Option (List String)

/-- One completion returned by the language-model oracle: its tool calls
(possibly none) and its parsed content. -/
structure ModelMsg where
  tool_calls : List ToolCall
  content : ContentData

/-- The record-store collaborator (the MCP client): each call either
returns a booking object or throws an error message. -/
structure Store where
  create : Option Draft → Except String Draft
  update : Option String → Option Draft → Except String Draft
  get : Option String → Except String Draft

/-- Observable events of one turn: the external store calls attempted,
plus the confirmation gate refusing a model-proposed mutating call
(recording the draft at that point). -/
inductive StoreCall where
  | callCreate (payload : Option Draft)
  | callUpdate (id : Option String) (patch : Option Draft)
  | callGet (id : Option String)
  | blockedMutating (name : String) (bookingAt : Option Draft)

/-- Is the event a mutating store call (create or update)? -/
def isMutatingEvent : StoreCall → Bool
  | .callCreate _ => true
  | .callUpdate _ _ => true
  | _ => false

/-- Number of mutating store calls among a turn's events. -/
def mutCount (events : List StoreCall) : Nat :=
  (events.filter isMutatingEvent).length

/-- The `payload` component of a `toolTrace` entry. -/
inductive TracePayload where
  | idPatch (id : String) (patch : Draft)
  | ofPayload (p : Draft)
  | raw (b : Draft)
  | args (tc : ToolCall)

/-- One `toolTrace` entry: a successful call with its result, or a failed
call with the error's message. -/
inductive TraceEntry where
  | success (name : String) (payload : TracePayload) (result : Option Draft)
  | failure (name : String) (payload : TracePayload) (msg : String)

/-- The JSON body of the turn's response, plus the instrumented events. -/
structure TurnResult where
  message : String
  booking : Option Draft
  toolTrace : List TraceEntry
  events : List StoreCall

/-- The mutable state threaded through one turn. -/
structure TurnState where
  booking : Option Draft
  trace : List TraceEntry
  events : List StoreCall

/-- Reply strings of the route. -/
def sayConfirmMsg : String :=
  "I have the booking summary ready. Please say confirm to proceed."

/-- Reply on a successful direct mutation. -/
def bookingConfirmedMsg : String := "Your booking has been confirmed."

/-- Reply on a failed direct mutation. -/
def bookingFailedMsg : String := "I couldn't finalize the booking. Please try again."

/-- Reply when the two-iteration loop is exhausted. -/
def continueMsg : String := "Let's continue the booking details."

/-- Dispatch one tool call to the store: the call's outcome (`none` result
for an unknown tool name, mirroring `result` staying `undefined`) plus the
store-call events it caused. -/
def execToolCall (store : Store) (tc : ToolCall) :
    Except String (Option Draft) × List StoreCall :=
  if tc.name == "create_booking" then
    ((store.create tc.payload).map some, [.callCreate tc.payload])
  else if tc.name == "update_booking" then
    ((store.update tc.id tc.patch).map some, [.callUpdate tc.id tc.patch])
  else if tc.name == "get_booking" then
    ((store.get tc.id).map some, [.callGet tc.id])
  else (.ok none, [])

/-- The `for (const toolCall of choice.message.tool_calls)` loop: either an
early response (the unconfirmed-mutation gate fired) or the state after
all tool calls ran. -/
def runToolCalls (store : Store) (confirmed : Bool) :
    TurnState → List ToolCall → TurnResult ⊕ TurnState
  | st, [] => .inr st
  | st, tc :: rest =>
    if !confirmed && isMutatingName tc.name then
      .inl { message := sayConfirmMsg, booking := st.booking, toolTrace := st.trace,
             events := st.events ++ [.blockedMutating tc.name st.booking] }
    else
      match execToolCall store tc with
      | (.ok r, log) =>
        runToolCalls store confirmed
          { booking := match r with | some d => some d | none => st.booking,
            trace := st.trace ++ [.success tc.name (.args tc) r],
            events := st.events ++ log } rest
      | (.error e, log) =>
        runToolCalls store confirmed
          { booking := st.booking,
            trace := st.trace ++ [.failure tc.name (.args tc) e],
            events := st.events ++ log } rest

/-- The informational (content) branch of the loop: merge the model's
draft delta, pick the missing-field list (the model's own when non-empty,
otherwise the computed one), and build the reply. -/
def contentStep (c : ContentData) (st : TurnState) : TurnResult :=
  let booking := match c.draft with
    | some pd => some (mergeDraft (st.booking.getD emptyDraft) pd)
    | none => st.booking
  let missingFields := match c.missing_fields with
    | some (f :: fs) => f :: fs
    | _ => getMissingFields booking
  { message :=
      if missingFields.isEmpty then (c.message.getD "")
      else buildMissingMessage missingFields booking,
    booking := booking, toolTrace := st.trace, events := st.events }

/-- The `for (let i = 0; i < 2; ...)` completion loop, with the remaining
iteration count as fuel and the model oracle indexed by iteration. -/
def runLoop (store : Store) (confirmed : Bool) (model : Nat → ModelMsg) :
    Nat → Nat → TurnState → TurnResult
  | 0, _, st =>
    { message := continueMsg, booking := st.booking,
      toolTrace := st.trace, events := st.events }
  | fuel + 1, i, st =>
    let choice := model i
    if choice.tool_calls.isEmpty then contentStep choice.content st
    else
      match runToolCalls store confirmed st choice.tool_calls with
      | .inl res => res
      | .inr st' => runLoop store confirmed model fuel (i + 1) st'

/-- The authorized direct mutation (the `if (confirmed && booking &&
missingBefore.length === 0)` block): update when the draft carries a
string `id`, otherwise create. -/
def directMutation (store : Store) (b : Draft) : TurnResult :=
  match stringIdOf (b "id") with
  | some i =>
    match store.update (some i) (some (removeId b)) with
    | .ok r =>
      { message := bookingConfirmedMsg, booking := some r,
        toolTrace := [.success "update_booking" (.idPatch i (removeId b)) (some r)],
        events := [.callUpdate (some i) (some (removeId b))] }
    | .error e =>
      { message := bookingFailedMsg, booking := some b,
        toolTrace := [.failure "update_booking" (.raw b) e],
        events := [.callUpdate (some i) (some (removeId b))] }
  | none =>
    match store.create (some b) with
    | .ok r =>
      { message := bookingConfirmedMsg, booking := some r,
        toolTrace := [.success "create_booking" (.ofPayload b) (some r)],
        events := [.callCreate (some b)] }
    | .error e =>
      { message := bookingFailedMsg, booking := some b,
        toolTrace := [.failure "create_booking" (.raw b) e],
        events := [.callCreate (some b)] }

/-- The whole `POST` turn handler, with the store and the language model
as oracles. -/
def postTurn (store : Store) (model : Nat → ModelMsg)
    (messages : List ChatMessage) (bodyBooking : Option Draft) : TurnResult :=
  let confirmed := hasConfirmToken (latestUtterance messages)
  match bodyBooking with
  | some b =>
    if confirmed && (getMissingFields (some b)).isEmpty then directMutation store b
    else runLoop store confirmed model 2 0 ⟨some b, [], []⟩
  | none => runLoop store confirmed model 2 0 ⟨none, [], []⟩

/-- Which mutation the direct path issues: update when the draft carries a
string id, create otherwise. -/
def mutationName (b : Draft) : String :=
  match stringIdOf (b "id") with
  | some _ => "update_booking"
  | none => "create_booking"

/-- The store call the direct path issues. -/
def mutationCall (b : Draft) : StoreCall :=
  match stringIdOf (b "id") with
  | some i => .callUpdate (some i) (some (removeId b))
  | none => .callCreate (some b)

/-- The trace payload the direct path records on success. -/
def mutationPayloadOf (b : Draft) : TracePayload :=
  match stringIdOf (b "id") with
  | some i => .idPatch i (removeId b)
  | none => .ofPayload b

/-- The direct mutation as the store sees it. -/
def mutationOutcome (store : Store) (b : Draft) : Except String Draft :=
  match stringIdOf (b "id") with
  | some i => store.update (some i) (some (removeId b))
  | none => store.create (some b)

/-! ## Concrete fixtures for witnesses and counterexamples -/

/-- A fully populated draft, field by field. -/
def fullDraftList : List (String × Value) := [
  ("hotel", .vStr "Resort Hotel"),
  ("lead_time", .vNum 30),
  ("arrival_date_year", .vNum 2027),
  ("arrival_date_month", .vStr "August"),
  ("arrival_date_week_number", .vNum 32),
  ("arrival_date_day_of_month", .vNum 10),
  ("stays_in_weekend_nights", .vNum 2),
  ("stays_in_week_nights", .vNum 3),
  ("adults", .vNum 2),
  ("children", .vNum 1),
  ("babies", .vNum 0),
  ("meal", .vStr "BB"),
  ("country", .vStr "PRT"),
  ("market_segment", .vStr "Direct"),
  ("is_repeated_guest", .vBool false),
  ("reserved_room_type", .vStr "A"),
  ("customer_type", .vStr "Transient"),
  ("adr", .vNum 120),
  ("required_car_parking_spaces", .vNum 0),
  ("total_of_special_requests", .vNum 1),
  ("reservation_status", .vStr "Checked-In"),
  ("reservation_status_date", .vStr "2027-08-10")
]

/-- A complete draft without a persisted id. -/
def completeDraft : Draft := draftOfList fullDraftList

/-- A complete draft carrying a persisted string id. -/
def completeDraftWithId : Draft := draftOfList (("id", .vStr "bk-1") :: fullDraftList)

/-- A draft with only the hotel set. -/
def partialDraft : Draft := draftOfList [("hotel", .vStr "Resort Hotel")]

/-- Another partial draft, for a separate counterexample. -/
def partialDraftCity : Draft := draftOfList [("hotel", .vStr "City Hotel")]

/-- A draft complete except for the hotel. -/
def nearlyCompleteDraft : Draft := draftOfList fullDraftList.tail

/-- A store whose every call succeeds, returning the persisted booking. -/
def okStore : Store :=
  ⟨fun _ => .ok completeDraftWithId,
   fun _ _ => .ok completeDraftWithId,
   fun _ => .ok completeDraftWithId⟩

/-- A store whose every call throws "Booking not found". -/
def failingStore : Store :=
  ⟨fun _ => .error "Booking not found",
   fun _ _ => .error "Booking not found",
   fun _ => .error "Booking not found"⟩

/-- A model that never proposes tool calls and says nothing. -/
def quietModel : Nat → ModelMsg := fun _ => ⟨[], ⟨none, none, none⟩⟩

/-- A model that proposes a `create_booking` tool call on the first
iteration and answers plainly on the second. -/
def pushyModel : Nat → ModelMsg := fun i =>
  if i = 0 then ⟨[⟨"create_booking", some emptyDraft, none, none⟩], ⟨none, none, none⟩⟩
  else ⟨[], ⟨some "done", none, none⟩⟩

/-- A model that extracts the hotel and answers, with no tool calls. -/
def chattyModel : Nat → ModelMsg := fun _ =>
  ⟨[], ⟨some "noted", some (draftOfList [("hotel", .vStr "Resort Hotel")]), none⟩⟩

/-- A model that reports its own (wrong) missing-field list. -/
def lyingModel : Nat → ModelMsg := fun _ =>
  ⟨[], ⟨some "All set!", none, some ["adr"]⟩⟩

/-! ## Helper lemmas about the turn controller -/

lemma execToolCall_log_no_mut (store : Store) (tc : ToolCall)
    (h : isMutatingName tc.name = false) :
    (execToolCall store tc).2.filter isMutatingEvent = [] := by
  rw [isMutatingName, Bool.or_eq_false_iff] at h
  rw [execToolCall, h.1, h.2]
  cases hg : (tc.name == "get_booking") <;> simp [isMutatingEvent]

lemma execToolCall_log_no_blocked (store : Store) (tc : ToolCall)
    (name : String) (b' : Option Draft) :
    StoreCall.blockedMutating name b' ∉ (execToolCall store tc).2 := by
  rw [execToolCall]
  cases h1 : (tc.name == "create_booking") <;>
    cases h2 : (tc.name == "update_booking") <;>
    cases h3 : (tc.name == "get_booking") <;> simp

lemma runToolCalls_filter_mut_false (store : Store) (st : TurnState)
    (tcs : List ToolCall) :
    (match runToolCalls store false st tcs with
     | .inl res => res.events.filter isMutatingEvent
     | .inr st' => st'.events.filter isMutatingEvent) =
      st.events.filter isMutatingEvent := by
  induction tcs generalizing st with
  | nil => rfl
  | cons tc rest ih =>
    by_cases hm : isMutatingName tc.name = true
    · simp [runToolCalls, hm, List.filter_append, isMutatingEvent]
    · simp only [Bool.not_eq_true] at hm
      have hlog := execToolCall_log_no_mut store tc hm
      simp only [runToolCalls, Bool.not_false, Bool.true_and, hm, if_false,
        Bool.false_eq_true]
      cases hexec : execToolCall store tc with
      | mk r log =>
        rw [hexec] at hlog
        cases r with
        | ok ro =>
          rw [ih]
          simp [List.filter_append, hlog]
        | error e =>
          rw [ih]
          simp [List.filter_append, hlog]

lemma contentStep_events (c : ContentData) (st : TurnState) :
    (contentStep c st).events = st.events := rfl

lemma contentStep_trace (c : ContentData) (st : TurnState) :
    (contentStep c st).toolTrace = st.trace := rfl

lemma runLoop_filter_mut_false (store : Store) (model : Nat → ModelMsg)
    (fuel i : Nat) (st : TurnState) :
    (runLoop store false model fuel i st).events.filter isMutatingEvent =
      st.events.filter isMutatingEvent := by
  induction fuel generalizing i st with
  | zero => rfl
  | succ n ih =>
    rw [runLoop]
    have h := runToolCalls_filter_mut_false store st (model i).tool_calls
    cases hc : (model i).tool_calls.isEmpty
    · cases hrun : runToolCalls store false st (model i).tool_calls with
      | inl res => rw [hrun] at h; simpa using h
      | inr st' =>
        rw [hrun] at h
        simpa [ih] using h
    · simp [contentStep_events]

lemma runToolCalls_blocked_false (store : Store) (st : TurnState)
    (tcs : List ToolCall)
    (hst : ∀ name b', StoreCall.blockedMutating name b' ∉ st.events) :
    (match runToolCalls store false st tcs with
     | .inl res => res.message = sayConfirmMsg ∧
         ∀ name b', StoreCall.blockedMutating name b' ∈ res.events → res.booking = b'
     | .inr st' => ∀ name b', StoreCall.blockedMutating name b' ∉ st'.events) := by
  induction tcs generalizing st with
  | nil => exact hst
  | cons tc rest ih =>
    by_cases hm : isMutatingName tc.name = true
    · simp only [runToolCalls, hm, Bool.not_false, Bool.true_and, if_true]
      refine ⟨by simp, fun name b' hmem => ?_⟩
      rcases List.mem_append.mp hmem with hold | hnew
      · exact absurd hold (hst name b')
      · rcases List.mem_singleton.mp hnew with h
        injection h with h1 h2
        rw [h2]
    · simp only [Bool.not_eq_true] at hm
      simp only [runToolCalls, Bool.not_false, Bool.true_and, hm, if_false,
        Bool.false_eq_true]
      cases hexec : execToolCall store tc with
      | mk r log =>
        have hlog : ∀ name b', StoreCall.blockedMutating name b' ∉ log := by
          intro name b'
          have := execToolCall_log_no_blocked store tc name b'
          rw [hexec] at this
          exact this
        cases r with
        | ok ro =>
          apply ih
          intro name b' hmem
          rcases List.mem_append.mp hmem with hold | hnew
          · exact hst name b' hold
          · exact hlog name b' hnew
        | error e =>
          apply ih
          intro name b' hmem
          rcases List.mem_append.mp hmem with hold | hnew
          · exact hst name b' hold
          · exact hlog name b' hnew

lemma runLoop_blocked_false (store : Store) (model : Nat → ModelMsg)
    (fuel i : Nat) (st : TurnState)
    (hst : ∀ name b', StoreCall.blockedMutating name b' ∉ st.events) :
    ∀ name b',
      StoreCall.blockedMutating name b' ∈ (runLoop store false model fuel i st).events →
        (runLoop store false model fuel i st).message = sayConfirmMsg ∧
        (runLoop store false model fuel i st).booking = b' := by
  induction fuel generalizing i st with
  | zero =>
    intro name b' hmem
    exact absurd hmem (hst name b')
  | succ n ih =>
    rw [runLoop]
    have h := runToolCalls_blocked_false store st (model i).tool_calls hst
    cases hc : (model i).tool_calls.isEmpty
    · cases hrun : runToolCalls store false st (model i).tool_calls with
      | inl res =>
        rw [hrun] at h
        intro name b' hmem
        simp only [Bool.false_eq_true, if_false] at hmem ⊢
        exact ⟨h.1, h.2 name b' hmem⟩
      | inr st' =>
        rw [hrun] at h
        intro name b' hmem
        simp only [Bool.false_eq_true, if_false] at hmem ⊢
        exact ih (i + 1) st' h name b' hmem
    · intro name b' hmem
      simp [contentStep_events] at hmem
      exact absurd hmem (hst name b')

lemma getMissingFields_none_ne_nil : getMissingFields none ≠ [] := by decide

lemma directMutation_events_eq (store : Store) (b : Draft) :
    (directMutation store b).events = [mutationCall b] := by
  rw [directMutation, mutationCall]
  cases hid : stringIdOf (b "id") with
  | some i => cases hu : store.update (some i) (some (removeId b)) <;> simp [hu]
  | none => cases hcr : store.create (some b) <;> simp [hcr]

lemma mutCount_mutationCall (b : Draft) : mutCount [mutationCall b] = 1 := by
  rw [mutationCall]
  cases stringIdOf (b "id") <;> rfl

/-! ## Claim theorems over the turn controller -/

/-- C5: when the authorized direct mutation's store call throws, the turn
returns the prior draft unchanged, a trace with one failure entry carrying
the error's message, and the generic failure reply; exactly the one store
call is made (no retry) and the handler returns normally. -/
theorem c5_store_failure (store : Store) (model : Nat → ModelMsg)
    (messages : List ChatMessage) (b : Draft) (e : String)
    (hconf : hasConfirmToken (latestUtterance messages) = true)
    (hmiss : getMissingFields (some b) = [])
    (hfail : mutationOutcome store b = .error e) :
    postTurn store model messages (some b) =
      { message := bookingFailedMsg, booking := some b,
        toolTrace := [.failure (mutationName b) (.raw b) e],
        events := [mutationCall b] } := by
  rw [mutationOutcome] at hfail
  simp only [postTurn, hconf, hmiss, List.isEmpty_nil, Bool.true_and, if_true]
  rw [directMutation, mutationName, mutationCall]
  cases hid : stringIdOf (b "id") with
  | some i =>
    simp only [hid] at hfail
    simp [hfail]
  | none =>
    simp only [hid] at hfail
    simp [hfail]

/-- C5 witness: a concrete complete draft with an id, a store that throws
"Booking not found", a confirmed utterance. -/
theorem c5_store_failure_witness :
    postTurn failingStore quietModel [⟨"user", "confirm"⟩] (some completeDraftWithId) =
      { message := bookingFailedMsg, booking := some completeDraftWithId,
        toolTrace := [.failure (mutationName completeDraftWithId)
          (.raw completeDraftWithId) "Booking not found"],
        events := [mutationCall completeDraftWithId] } :=
  c5_store_failure failingStore quietModel [⟨"user", "confirm"⟩]
    completeDraftWithId "Booking not found" (by decide) (by decide) rfl

/-- C7: on an authorized turn, exactly one mutation is issued — an update
with the draft minus its id as the patch when the draft carries a string
id, otherwise a create with the full draft — and on success the returned
draft is the store's representation and the reply is the confirmation
message. -/
theorem c7_authorized_mutation (store : Store) (model : Nat → ModelMsg)
    (messages : List ChatMessage) (b r : Draft)
    (hconf : hasConfirmToken (latestUtterance messages) = true)
    (hmiss : getMissingFields (some b) = [])
    (hok : mutationOutcome store b = .ok r) :
    postTurn store model messages (some b) =
      { message := bookingConfirmedMsg, booking := some r,
        toolTrace := [.success (mutationName b) (mutationPayloadOf b) (some r)],
        events := [mutationCall b] } := by
  rw [mutationOutcome] at hok
  simp only [postTurn, hconf, hmiss, List.isEmpty_nil, Bool.true_and, if_true]
  rw [directMutation, mutationName, mutationCall, mutationPayloadOf]
  cases hid : stringIdOf (b "id") with
  | some i =>
    simp only [hid] at hok
    simp [hok]
  | none =>
    simp only [hid] at hok
    simp [hok]

/-- C7 witness: a concrete complete draft without an id and a succeeding
store — one create is issued and the store's row comes back. -/
theorem c7_authorized_mutation_witness :
    postTurn okStore quietModel [⟨"user", "confirm"⟩] (some completeDraft) =
      { message := bookingConfirmedMsg, booking := some completeDraftWithId,
        toolTrace := [.success (mutationName completeDraft)
          (mutationPayloadOf completeDraft) (some completeDraftWithId)],
        events := [mutationCall completeDraft] } :=
  c7_authorized_mutation okStore quietModel [⟨"user", "confirm"⟩]
    completeDraft completeDraftWithId (by decide) (by decide) rfl

/-- C1 (amended): with no confirmation token in the latest message, no
mutating store call is ever issued; with the token present and the
missing-field list empty, exactly one mutating store call is issued. -/
theorem c1_mutation_gate (store : Store) (model : Nat → ModelMsg)
    (messages : List ChatMessage) (bodyBooking : Option Draft) :
    (hasConfirmToken (latestUtterance messages) = false →
      mutCount (postTurn store model messages bodyBooking).events = 0) ∧
    (hasConfirmToken (latestUtterance messages) = true →
      getMissingFields bodyBooking = [] →
      mutCount (postTurn store model messages bodyBooking).events = 1) := by
  constructor
  · intro h
    cases bodyBooking with
    | none =>
      simp only [postTurn, h]
      rw [mutCount, runLoop_filter_mut_false]
      rfl
    | some b =>
      simp only [postTurn, h, Bool.false_and, Bool.false_eq_true, if_false]
      rw [mutCount, runLoop_filter_mut_false]
      rfl
  · intro hc hm
    cases bodyBooking with
    | none => exact absurd hm getMissingFields_none_ne_nil
    | some b =>
      simp only [postTurn, hc, hm, List.isEmpty_nil, Bool.true_and, if_true]
      rw [mutCount, directMutation_events_eq]
      exact mutCount_mutationCall b

/-- C1 witness: a confirmed, complete turn issues exactly one mutating
store call. -/
theorem c1_mutation_gate_witness :
    mutCount (postTurn okStore quietModel
      [⟨"user", "Everything looks right, confirm it."⟩] (some completeDraft)).events = 1 :=
  (c1_mutation_gate okStore quietModel
    [⟨"user", "Everything looks right, confirm it."⟩] (some completeDraft)).2
    (by decide) (by decide)

/-- C1 counterexample: with "confirm" present but the draft missing fields,
a model-proposed `create_booking` tool call still reaches the store — a
mutating call is made in a turn the claim says must make none. -/
theorem c1_counterexample :
    hasConfirmToken (latestUtterance [⟨"user", "confirm"⟩]) = true ∧
    getMissingFields (some partialDraft) ≠ [] ∧
    mutCount (postTurn okStore pushyModel
      [⟨"user", "confirm"⟩] (some partialDraft)).events = 1 := by
  refine ⟨by decide, by decide, by decide⟩

/-- C6 (amended): when the confirmation token is absent, no mutating store
call is invoked, and whenever the gate blocks a model-proposed mutating
tool call the turn ends with the "say confirm" reply and the draft as it
stood at that point. -/
theorem c6_unconfirmed_gate (store : Store) (model : Nat → ModelMsg)
    (messages : List ChatMessage) (bodyBooking : Option Draft)
    (hconf : hasConfirmToken (latestUtterance messages) = false) :
    mutCount (postTurn store model messages bodyBooking).events = 0 ∧
    ∀ name b',
      StoreCall.blockedMutating name b' ∈ (postTurn store model messages bodyBooking).events →
        (postTurn store model messages bodyBooking).message = sayConfirmMsg ∧
        (postTurn store model messages bodyBooking).booking = b' := by
  cases bodyBooking with
  | none =>
    constructor
    · simp only [postTurn, hconf]
      rw [mutCount, runLoop_filter_mut_false]
      rfl
    · simp only [postTurn, hconf]
      exact runLoop_blocked_false store model 2 0 ⟨none, [], []⟩
        (fun name b' => List.not_mem_nil _)
  | some b =>
    constructor
    · simp only [postTurn, hconf, Bool.false_and, Bool.false_eq_true, if_false]
      rw [mutCount, runLoop_filter_mut_false]
      rfl
    · simp only [postTurn, hconf, Bool.false_and, Bool.false_eq_true, if_false]
      exact runLoop_blocked_false store model 2 0 ⟨some b, [], []⟩
        (fun name b' => List.not_mem_nil _)

/-- C6 witness: a fully populated draft, "looks good" (no token), and a
model proposing `create_booking`: the reply asks for "confirm", the draft
comes back unchanged, and no store call is made. -/
theorem c6_unconfirmed_gate_witness :
    (postTurn okStore pushyModel [⟨"user", "looks good"⟩] (some completeDraft)).message =
      sayConfirmMsg ∧
    (postTurn okStore pushyModel [⟨"user", "looks good"⟩] (some completeDraft)).booking =
      some completeDraft := by
  have h := c6_unconfirmed_gate okStore pushyModel
    [⟨"user", "looks good"⟩] (some completeDraft) (by decide)
  have hmem : StoreCall.blockedMutating "create_booking" (some completeDraft) ∈
      (postTurn okStore pushyModel [⟨"user", "looks good"⟩] (some completeDraft)).events := by
    show StoreCall.blockedMutating "create_booking" (some completeDraft) ∈
      [StoreCall.blockedMutating "create_booking" (some completeDraft)]
    exact List.mem_singleton_self _
  exact h.2 "create_booking" (some completeDraft) hmem

/-- C6 counterexample: the claim's gate condition is "not authorized", but
the code only checks for the token: with "confirm" present and fields
missing, a model-proposed mutating call is invoked and the reply is not
the "say confirm" message. -/
theorem c6_counterexample :
    hasConfirmToken (latestUtterance [⟨"user", "yes confirm it"⟩]) = true ∧
    getMissingFields (some partialDraftCity) ≠ [] ∧
    mutCount (postTurn okStore pushyModel
      [⟨"user", "yes confirm it"⟩] (some partialDraftCity)).events = 1 ∧
    (postTurn okStore pushyModel
      [⟨"user", "yes confirm it"⟩] (some partialDraftCity)).message ≠ sayConfirmMsg := by
  refine ⟨by decide, by decide, by decide, by decide⟩

/-- C4 (amended): on an informational first iteration (no tool calls), the
turn merges the model's draft delta and chooses a missing-field list — the
model-supplied `missing_fields` when that list is non-empty, otherwise
`getMissingFields` of the merged draft; the reply is the generated prompt
over the chosen list, in that list's order, and the model-authored message
is returned exactly when the chosen list is empty. -/
theorem c4_informational_reply (store : Store) (model : Nat → ModelMsg)
    (messages : List ChatMessage) (bodyBooking : Option Draft)
    (hgate : bodyBooking = none ∨
      (hasConfirmToken (latestUtterance messages) &&
        (getMissingFields bodyBooking).isEmpty) = false)
    (htool : (model 0).tool_calls = []) :
    postTurn store model messages bodyBooking =
      (let c := (model 0).content
       let merged := match c.draft with
         | some pd => some (mergeDraft (bodyBooking.getD emptyDraft) pd)
         | none => bodyBooking
       let chosen := match c.missing_fields with
         | some (f :: fs) => f :: fs
         | _ => getMissingFields merged
       { message := if chosen.isEmpty then (c.message.getD "")
                    else buildMissingMessage chosen merged,
         booking := merged, toolTrace := [], events := [] }) := by
  cases bodyBooking with
  | none =>
    simp only [postTurn]
    rw [runLoop, htool]
    simp only [List.isEmpty_nil, if_true]
    rw [contentStep]
  | some b =>
    rcases hgate with hnone | hfalse
    · exact absurd hnone (by simp)
    · simp only [postTurn, hfalse, Bool.false_eq_true, if_false]
      rw [runLoop, htool]
      simp only [List.isEmpty_nil, if_true]
      rw [contentStep]

/-- C4 witness: empty draft, "Book a Resort Hotel", the model extracts the
hotel and supplies no missing-field list — the reply is the generated
prompt over the merged draft's computed missing fields. -/
theorem c4_informational_reply_witness :
    postTurn okStore chattyModel [⟨"user", "Book a Resort Hotel"⟩] none =
      (let c := (chattyModel 0).content
       let merged := match c.draft with
         | some pd => some (mergeDraft ((none : Option Draft).getD emptyDraft) pd)
         | none => (none : Option Draft)
       let chosen := match c.missing_fields with
         | some (f :: fs) => f :: fs
         | _ => getMissingFields merged
       { message := if chosen.isEmpty then (c.message.getD "")
                    else buildMissingMessage chosen merged,
         booking := merged, toolTrace := [], events := [] }) :=
  c4_informational_reply okStore chattyModel [⟨"user", "Book a Resort Hotel"⟩] none
    (Or.inl rfl) rfl

/-- C4 counterexample: the merged draft is missing exactly the hotel, but
the model reports its own list `["adr"]`; the reply equals the prompt
generated over the model's list — not the prompt over the merged draft's
actual missing fields that the original claim requires. -/
theorem c4_counterexample :
    (postTurn okStore lyingModel [⟨"user", "ok"⟩] (some nearlyCompleteDraft)).booking =
      some nearlyCompleteDraft ∧
    getMissingFields (some nearlyCompleteDraft) = ["hotel"] ∧
    (postTurn okStore lyingModel [⟨"user", "ok"⟩] (some nearlyCompleteDraft)).message =
      buildMissingMessage ["adr"] (some nearlyCompleteDraft) ∧
    (postTurn okStore lyingModel [⟨"user", "ok"⟩] (some nearlyCompleteDraft)).message ≠
      buildMissingMessage ["hotel"] (some nearlyCompleteDraft) := by
  refine ⟨rfl, by decide, by decide, by decide⟩

/-! ## The record store's create route (`POST /api/v1/bookings`) -/

/-- `HOTEL_ENUM` from the API. -/
def HOTEL_ENUM : List String := ["City Hotel", "Resort Hotel"]

/-- `MEAL_ENUM` from the API (note the empty string is allowed). -/
def MEAL_ENUM : List String := ["BB", "HB", "FB", "SC", ""]

/-- `MARKET_SEGMENT_ENUM` from the API. -/
def MARKET_SEGMENT_ENUM : List String := ["Corporate", "Direct", "Groups", "Online TA"]

/-- `CUSTOMER_TYPE_ENUM` from the API. -/
def CUSTOMER_TYPE_ENUM : List String := ["Transient", "Contract", "Group", "Other"]

/-- `RESERVED_ROOM_ENUM` from the API. -/
def RESERVED_ROOM_ENUM : List String := ["A", "B", "C", "D", "E", "F", "G", "H"]

/-- `RES_STATUS_ENUM` from the API. -/
def RES_STATUS_ENUM : List String := ["Canceled", "Checked-In", "No-Show"]

/-- `\d` of the reservation-status-date regex. -/
def isDigitChar (c : Char) : Bool := decide ('0' ≤ c) && decide (c ≤ '9')

/-- The `^\d{4}-\d{2}-\d{2}$` check of `reservation_status_date`. -/
def dateRegexCheck (s : String) : Bool :=
  match s.data with
  | [y1, y2, y3, y4, d1, m1, m2, d2, a1, a2] =>
    isDigitChar y1 && isDigitChar y2 && isDigitChar y3 && isDigitChar y4 &&
    d1 == '-' && isDigitChar m1 && isDigitChar m2 && d2 == '-' &&
    isDigitChar a1 && isDigitChar a2
  | _ => false

/-- `z.enum(vals)`: a string drawn from the enumeration. -/
def enumOk (vals : List String) : Option Value → Bool
  | some (.vStr s) => vals.contains s
  | _ => false

/-- `z.number().int().min(lo)` (integrality is inherent to the `Int`
model of JSON numbers used here). -/
def intMinOk (lo : Int) : Option Value → Bool
  | some (.vNum n) => decide (lo ≤ n)
  | _ => false

/-- `z.number().int().min(lo).max(hi)`. -/
def intRangeOk (lo hi : Int) : Option Value → Bool
  | some (.vNum n) => decide (lo ≤ n) && decide (n ≤ hi)
  | _ => false

/-- `z.number()` with no further bounds (the `adr` field). -/
def numOk : Option Value → Bool
  | some (.vNum _) => true
  | _ => false

/-- `z.boolean()`. -/
def boolOk : Option Value → Bool
  | some (.vBool _) => true
  | _ => false

/-- `z.string().min(1)` (the month field). -/
def strMinLenOk : Option Value → Bool
  | some (.vStr s) => decide (1 ≤ s.length)
  | _ => false

/-- `z.string().min(2).max(3)` (the country field). -/
def countryOk : Option Value → Bool
  | some (.vStr s) => decide (2 ≤ s.length) && decide (s.length ≤ 3)
  | _ => false

/-- `z.string().regex(/^\d{4}-\d{2}-\d{2}$/)`. -/
def dateOk : Option Value → Bool
  | some (.vStr s) => dateRegexCheck s
  | _ => false

/-- `z.string().nullable().optional()` (agent/company): absent, null, or a
string. -/
def optNullStrOk : Option Value → Bool
  | none => true
  | some .vNull => true
  | some (.vStr _) => true
  | _ => false

/-- `bookingCreateSchema.parse(req.body)` succeeds iff every field check
passes, field by field in schema order. -/
def bookingCreateOk (body : Draft) : Bool :=
  enumOk HOTEL_ENUM (body "hotel") &&
  intMinOk 0 (body "lead_time") &&
  intMinOk 2000 (body "arrival_date_year") &&
  strMinLenOk (body "arrival_date_month") &&
  intRangeOk 1 53 (body "arrival_date_week_number") &&
  intRangeOk 1 31 (body "arrival_date_day_of_month") &&
  intMinOk 0 (body "stays_in_weekend_nights") &&
  intMinOk 0 (body "stays_in_week_nights") &&
  intMinOk 0 (body "adults") &&
  intMinOk 0 (body "children") &&
  intMinOk 0 (body "babies") &&
  enumOk MEAL_ENUM (body "meal") &&
  countryOk (body "country") &&
  enumOk MARKET_SEGMENT_ENUM (body "market_segment") &&
  boolOk (body "is_repeated_guest") &&
  enumOk RESERVED_ROOM_ENUM (body "reserved_room_type") &&
  optNullStrOk (body "agent") &&
  optNullStrOk (body "company") &&
  enumOk CUSTOMER_TYPE_ENUM (body "customer_type") &&
  numOk (body "adr") &&
  intMinOk 0 (body "required_car_parking_spaces") &&
  intMinOk 0 (body "total_of_special_requests") &&
  enumOk RES_STATUS_ENUM (body "reservation_status") &&
  dateOk (body "reservation_status_date")

/-- `computeArrivalDate`'s month lookup succeeds iff the trimmed,
lower-cased month is one of the twelve canonical names (the `monthMap`
keys coincide with `MONTH_NAMES`). -/
def monthResolves (month : String) : Bool :=
  MONTH_NAMES.contains (jsToLower (jsTrim month))

/-- `payload.agent ?? null` as stored: the string, or SQL null. -/
def storedNullable : Option Value → Value
  | some (.vStr s) => .vStr s
  | _ => .vNull

/-- The persisted row as the create route returns it (`{ data: booking }`):
the validated payload's fields (zod strips unknown keys, so only schema
keys survive), the generated id, normalized agent/company, and the
soft-delete marker; the `arrival_date`/timestamp columns are Date objects
never consulted by `getMissingFields` and have no JSON-scalar
counterpart here. -/
def bookingRowOf (body : Draft) (newId : String) : Draft := fun k =>
  if k == "id" then some (.vStr newId)
  else if k == "agent" then some (storedNullable (body "agent"))
  else if k == "company" then some (storedNullable (body "company"))
  else if k == "deleted_at" then some .vNull
  else if REQUIRED_FIELDS.contains k then body k
  else none

/-- The create route: schema validation, then the arrival-date month
lookup (which throws "Invalid month name" for non-canonical months), then
the insert returning the stored row. A non-string month cannot reach the
month lookup because the schema requires a string there. -/
def createBookingRoute (body : Draft) (newId : String) : Except String Draft :=
  if bookingCreateOk body then
    match body "arrival_date_month" with
    | some (.vStr m) =>
      if monthResolves m then .ok (bookingRowOf body newId)
      else .error ("Invalid month name: " ++ m)
    | _ => .error "VALIDATION_ERROR"
  else .error "VALIDATION_ERROR"

/-! ## Helper lemmas for the create round-trip -/

lemma dropWhile_nil_all (l : List Char) (h : l.dropWhile isWsChar = []) :
    l.all isWsChar = true := by
  induction l with
  | nil => rfl
  | cons c t ih =>
    by_cases hc : isWsChar c = true
    · rw [List.dropWhile_cons, if_pos hc] at h
      simp [List.all_cons, hc, ih h]
    · rw [List.dropWhile_cons, if_neg hc] at h
      exact absurd h (by simp)

lemma all_of_dropWhile_all (l : List Char)
    (h : (l.dropWhile isWsChar).all isWsChar = true) : l.all isWsChar = true := by
  induction l with
  | nil => rfl
  | cons c t ih =>
    by_cases hc : isWsChar c = true
    · rw [List.dropWhile_cons, if_pos hc] at h
      simp [List.all_cons, hc, ih h]
    · rw [List.dropWhile_cons, if_neg hc] at h
      exact h

lemma trimChars_eq_nil_all (l : List Char) (h : trimChars l = []) :
    l.all isWsChar = true := by
  rw [trimChars] at h
  have h1 : (l.dropWhile isWsChar).reverse.dropWhile isWsChar = [] := by
    have h2 := congrArg List.reverse h
    simpa using h2
  have h2 := dropWhile_nil_all _ h1
  have h3 : (l.dropWhile isWsChar).all isWsChar = true := by
    rw [List.all_eq_true] at h2 ⊢
    intro x hx
    exact h2 x (List.mem_reverse.mpr hx)
  exact all_of_dropWhile_all l h3

lemma digit_not_ws (c : Char) (h : isDigitChar c = true) : isWsChar c = false := by
  rw [isDigitChar, Bool.and_eq_true] at h
  have h0 : '0' ≤ c := of_decide_eq_true h.1
  have hne : ∀ w : Char, w < '0' → (c == w) = false := by
    intro w hw
    rw [beq_eq_false_iff_ne]
    intro hcw
    rw [hcw] at h0
    exact absurd hw (not_lt.mpr h0)
  rw [isWsChar, hne ' ' (by decide), hne '\t' (by decide), hne '\n' (by decide),
    hne '\r' (by decide), hne '\x0b' (by decide), hne '\x0c' (by decide)]
  rfl

lemma dateRegex_trim_ne (s : String) (h : dateRegexCheck s = true) :
    (jsTrim s == "") = false := by
  rw [beq_eq_false_iff_ne]
  intro hcon
  have htrim : trimChars s.data = [] := congrArg String.data hcon
  have hall : s.data.all isWsChar = true := trimChars_eq_nil_all s.data htrim
  rw [dateRegexCheck] at h
  rcases hd : s.data with _ |
    ⟨y1, _ | ⟨y2, _ | ⟨y3, _ | ⟨y4, _ | ⟨d1, _ | ⟨m1, _ | ⟨m2, _ | ⟨d2, _ |
      ⟨a1, _ | ⟨a2, _ | ⟨c11, lrest⟩⟩⟩⟩⟩⟩⟩⟩⟩⟩⟩
  · rw [hd] at h; simp at h
  · rw [hd] at h; simp at h
  · rw [hd] at h; simp at h
  · rw [hd] at h; simp at h
  · rw [hd] at h; simp at h
  · rw [hd] at h; simp at h
  · rw [hd] at h; simp at h
  · rw [hd] at h; simp at h
  · rw [hd] at h; simp at h
  · rw [hd] at h; simp at h
  · rw [hd] at h hall
    simp only [Bool.and_eq_true] at h
    have hy1 : isDigitChar y1 = true := h.1.1.1.1.1.1.1.1.1
    simp only [List.all_cons, Bool.and_eq_true] at hall
    have hws := hall.1
    rw [digit_not_ws y1 hy1] at hws
    exact absurd hws (by decide)
  · rw [hd] at h; simp at h

lemma month_trim_ne (s : String)
    (h : MONTH_NAMES.contains (jsToLower (jsTrim s)) = true) :
    (jsTrim s == "") = false := by
  cases hb : (jsTrim s == "") with
  | false => rfl
  | true =>
    have he : jsTrim s = "" := eq_of_beq hb
    rw [he] at h
    exact absurd h (by decide)

lemma enum_trim_ne (vals : List String) (s : String)
    (hv : vals.contains s = true)
    (hall : ∀ t ∈ vals, (jsTrim t == "") = false) : (jsTrim s == "") = false := by
  have hm : s ∈ vals := by simpa using hv
  exact hall s hm

lemma meal_trim_ne (s : String) (hc : MEAL_ENUM.contains s = true)
    (hne : s ≠ "") : (jsTrim s == "") = false := by
  have hm : s ∈ MEAL_ENUM := by simpa using hc
  fin_cases hm
  · decide
  · decide
  · decide
  · decide
  · exact absurd rfl hne

lemma not_missing_num (f : String) (hb : BOOLEAN_FIELDS.contains f = false)
    (n : Int) : fieldIsMissing f (some (.vNum n)) = false := by
  have hb' : f ∉ BOOLEAN_FIELDS := by simpa using hb
  simp [fieldIsMissing, isEmptyStringValue, Value.isNumberTy, Value.isBooleanTy,
    Value.isStringTy, hb']

lemma not_missing_bool (f : String) (hn : NUMBER_FIELDS.contains f = false)
    (b : Bool) : fieldIsMissing f (some (.vBool b)) = false := by
  have hn' : f ∉ NUMBER_FIELDS := by simpa using hn
  simp [fieldIsMissing, isEmptyStringValue, Value.isNumberTy, Value.isBooleanTy,
    Value.isStringTy, hn']

lemma not_missing_str (f s : String)
    (hn : NUMBER_FIELDS.contains f = false)
    (hb : BOOLEAN_FIELDS.contains f = false)
    (hs : (jsTrim s == "") = false)
    (hm : (f == "arrival_date_month") = false ∨
      MONTH_NAMES.contains (jsToLower (jsTrim s)) = true) :
    fieldIsMissing f (some (.vStr s)) = false := by
  have hn' : f ∉ NUMBER_FIELDS := by simpa using hn
  have hb' : f ∉ BOOLEAN_FIELDS := by simpa using hb
  rcases hm with hm | hm
  · simp [fieldIsMissing, isEmptyStringValue, isNonCanonicalMonthString,
      Value.isNumberTy, Value.isBooleanTy, Value.isStringTy, hn', hb', hs, hm]
  · have hm' : jsToLower (jsTrim s) ∈ MONTH_NAMES := by simpa using hm
    simp [fieldIsMissing, isEmptyStringValue, isNonCanonicalMonthString,
      Value.isNumberTy, Value.isBooleanTy, Value.isStringTy, hn', hb', hs, hm']

lemma enumOk_shape (vals : List String) (v : Option Value)
    (h : enumOk vals v = true) :
    ∃ s, v = some (.vStr s) ∧ vals.contains s = true := by
  cases v with
  | none => simp [enumOk] at h
  | some w =>
    cases w with
    | vStr s => exact ⟨s, rfl, h⟩
    | vNum n => simp [enumOk] at h
    | vBool b => simp [enumOk] at h
    | vNull => simp [enumOk] at h

lemma intMinOk_shape (lo : Int) (v : Option Value) (h : intMinOk lo v = true) :
    ∃ n, v = some (.vNum n) := by
  cases v with
  | none => simp [intMinOk] at h
  | some w =>
    cases w with
    | vStr s => simp [intMinOk] at h
    | vNum n => exact ⟨n, rfl⟩
    | vBool b => simp [intMinOk] at h
    | vNull => simp [intMinOk] at h

lemma intRangeOk_shape (lo hi : Int) (v : Option Value)
    (h : intRangeOk lo hi v = true) : ∃ n, v = some (.vNum n) := by
  cases v with
  | none => simp [intRangeOk] at h
  | some w =>
    cases w with
    | vStr s => simp [intRangeOk] at h
    | vNum n => exact ⟨n, rfl⟩
    | vBool b => simp [intRangeOk] at h
    | vNull => simp [intRangeOk] at h

lemma numOk_shape (v : Option Value) (h : numOk v = true) :
    ∃ n, v = some (.vNum n) := by
  cases v with
  | none => simp [numOk] at h
  | some w =>
    cases w with
    | vStr s => simp [numOk] at h
    | vNum n => exact ⟨n, rfl⟩
    | vBool b => simp [numOk] at h
    | vNull => simp [numOk] at h

lemma boolOk_shape (v : Option Value) (h : boolOk v = true) :
    ∃ b, v = some (.vBool b) := by
  cases v with
  | none => simp [boolOk] at h
  | some w =>
    cases w with
    | vStr s => simp [boolOk] at h
    | vNum n => simp [boolOk] at h
    | vBool b => exact ⟨b, rfl⟩
    | vNull => simp [boolOk] at h

lemma countryOk_shape (v : Option Value) (h : countryOk v = true) :
    ∃ s, v = some (.vStr s) := by
  cases v with
  | none => simp [countryOk] at h
  | some w =>
    cases w with
    | vStr s => exact ⟨s, rfl⟩
    | vNum n => simp [countryOk] at h
    | vBool b => simp [countryOk] at h
    | vNull => simp [countryOk] at h

lemma dateOk_shape (v : Option Value) (h : dateOk v = true) :
    ∃ s, v = some (.vStr s) ∧ dateRegexCheck s = true := by
  cases v with
  | none => simp [dateOk] at h
  | some w =>
    cases w with
    | vStr s => exact ⟨s, rfl, h⟩
    | vNum n => simp [dateOk] at h
    | vBool b => simp [dateOk] at h
    | vNull => simp [dateOk] at h

/-- A payload accepted by the create schema whose meal is the empty string
(the schema's meal enumeration allows ""). -/
def c3cexBody : Draft := draftOfList [
  ("hotel", .vStr "City Hotel"),
  ("lead_time", .vNum 5),
  ("arrival_date_year", .vNum 2027),
  ("arrival_date_month", .vStr "August"),
  ("arrival_date_week_number", .vNum 32),
  ("arrival_date_day_of_month", .vNum 10),
  ("stays_in_weekend_nights", .vNum 0),
  ("stays_in_week_nights", .vNum 2),
  ("adults", .vNum 2),
  ("children", .vNum 0),
  ("babies", .vNum 0),
  ("meal", .vStr ""),
  ("country", .vStr "PRT"),
  ("market_segment", .vStr "Direct"),
  ("is_repeated_guest", .vBool false),
  ("reserved_room_type", .vStr "A"),
  ("customer_type", .vStr "Transient"),
  ("adr", .vNum 100),
  ("required_car_parking_spaces", .vNum 0),
  ("total_of_special_requests", .vNum 0),
  ("reservation_status", .vStr "Checked-In"),
  ("reservation_status_date", .vStr "2027-08-10")
]

/-- C3 counterexample: the payload with `meal: ""` passes the create
schema, the create succeeds, yet feeding the returned booking back through
`getMissingFields` reports `meal` missing — the round-trip list is not
empty. -/
theorem c3_counterexample :
    (createBookingRoute c3cexBody "bk-9").isOk = true ∧
    (match createBookingRoute c3cexBody "bk-9" with
     | .ok row => getMissingFields (some row)
     | .error e => [e]) = ["meal"] := by
  refine ⟨by decide, by decide⟩

/-- C3 (amended): for every payload accepted by the create schema whose
create succeeds (so the month is canonical), whose meal is not the empty
string and whose country code is not whitespace-only, the returned booking
fed back through `getMissingFields` yields the empty list. -/
theorem c3_create_roundtrip (body : Draft) (newId : String) (row : Draft)
    (hok : createBookingRoute body newId = .ok row)
    (hmeal : body "meal" ≠ some (.vStr ""))
    (hcountry : ∀ s, body "country" = some (.vStr s) → (jsTrim s == "") = false) :
    getMissingFields (some row) = [] := by
  rw [createBookingRoute] at hok
  by_cases hacc : bookingCreateOk body = true
  case neg => rw [if_neg hacc] at hok; exact absurd hok (by simp)
  rw [if_pos hacc] at hok
  rw [bookingCreateOk] at hacc
  simp only [Bool.and_eq_true, and_assoc] at hacc
  obtain ⟨hHotel, hLead, hYear, hMonth, hWeek, hDay, hWkend, hWk, hAdults,
    hChildren, hBabies, hMeal, hCountry, hMseg, hRepg, hRoom, hAgent,
    hCompany, hCtype, hAdr, hParking, hReqs, hRstat, hRsd⟩ := hacc
  have hms : ∃ m, body "arrival_date_month" = some (.vStr m) := by
    rcases hmv : body "arrival_date_month" with _ | w
    · simp [strMinLenOk, hmv] at hMonth
    · cases w with
      | vStr m => exact ⟨m, rfl⟩
      | vNum n => simp [strMinLenOk, hmv] at hMonth
      | vBool b => simp [strMinLenOk, hmv] at hMonth
      | vNull => simp [strMinLenOk, hmv] at hMonth
  obtain ⟨ms, hmv⟩ := hms
  simp only [hmv] at hok
  by_cases hmon : monthResolves ms = true
  case neg => rw [if_neg hmon] at hok; exact absurd hok (by simp)
  rw [if_pos hmon] at hok
  injection hok with hrow
  subst hrow
  rw [monthResolves] at hmon
  simp only [getMissingFields, Option.getD]
  rw [List.filter_eq_nil_iff]
  intro f hf
  fin_cases hf
  · obtain ⟨s, hv, hc⟩ := enumOk_shape _ _ hHotel
    rw [Bool.not_eq_true,
      show bookingRowOf body newId "hotel" = body "hotel" from rfl, hv]
    exact not_missing_str "hotel" s (by decide) (by decide)
      (enum_trim_ne HOTEL_ENUM s hc (by decide)) (Or.inl (by decide))
  · obtain ⟨n, hv⟩ := intMinOk_shape _ _ hLead
    rw [Bool.not_eq_true,
      show bookingRowOf body newId "lead_time" = body "lead_time" from rfl, hv]
    exact not_missing_num "lead_time" (by decide) n
  · obtain ⟨n, hv⟩ := intMinOk_shape _ _ hYear
    rw [Bool.not_eq_true,
      show bookingRowOf body newId "arrival_date_year" = body "arrival_date_year" from rfl, hv]
    exact not_missing_num "arrival_date_year" (by decide) n
  · rw [Bool.not_eq_true,
      show bookingRowOf body newId "arrival_date_month" = body "arrival_date_month" from rfl, hmv]
    exact not_missing_str "arrival_date_month" ms (by decide) (by decide)
      (month_trim_ne ms hmon) (Or.inr hmon)
  · obtain ⟨n, hv⟩ := intRangeOk_shape _ _ _ hWeek
    rw [Bool.not_eq_true,
      show bookingRowOf body newId "arrival_date_week_number" =
        body "arrival_date_week_number" from rfl, hv]
    exact not_missing_num "arrival_date_week_number" (by decide) n
  · obtain ⟨n, hv⟩ := intRangeOk_shape _ _ _ hDay
    rw [Bool.not_eq_true,
      show bookingRowOf body newId "arrival_date_day_of_month" =
        body "arrival_date_day_of_month" from rfl, hv]
    exact not_missing_num "arrival_date_day_of_month" (by decide) n
  · obtain ⟨n, hv⟩ := intMinOk_shape _ _ hWkend
    rw [Bool.not_eq_true,
      show bookingRowOf body newId "stays_in_weekend_nights" =
        body "stays_in_weekend_nights" from rfl, hv]
    exact not_missing_num "stays_in_weekend_nights" (by decide) n
  · obtain ⟨n, hv⟩ := intMinOk_shape _ _ hWk
    rw [Bool.not_eq_true,
      show bookingRowOf body newId "stays_in_week_nights" =
        body "stays_in_week_nights" from rfl, hv]
    exact not_missing_num "stays_in_week_nights" (by decide) n
  · obtain ⟨n, hv⟩ := intMinOk_shape _ _ hAdults
    rw [Bool.not_eq_true,
      show bookingRowOf body newId "adults" = body "adults" from rfl, hv]
    exact not_missing_num "adults" (by decide) n
  · obtain ⟨n, hv⟩ := intMinOk_shape _ _ hChildren
    rw [Bool.not_eq_true,
      show bookingRowOf body newId "children" = body "children" from rfl, hv]
    exact not_missing_num "children" (by decide) n
  · obtain ⟨n, hv⟩ := intMinOk_shape _ _ hBabies
    rw [Bool.not_eq_true,
      show bookingRowOf body newId "babies" = body "babies" from rfl, hv]
    exact not_missing_num "babies" (by decide) n
  · obtain ⟨s, hv, hc⟩ := enumOk_shape _ _ hMeal
    have hne : s ≠ "" := fun he => hmeal (by rw [he] at hv; exact hv)
    rw [Bool.not_eq_true,
      show bookingRowOf body newId "meal" = body "meal" from rfl, hv]
    exact not_missing_str "meal" s (by decide) (by decide)
      (meal_trim_ne s hc hne) (Or.inl (by decide))
  · obtain ⟨s, hv⟩ := countryOk_shape _ hCountry
    rw [Bool.not_eq_true,
      show bookingRowOf body newId "country" = body "country" from rfl, hv]
    exact not_missing_str "country" s (by decide) (by decide)
      (hcountry s hv) (Or.inl (by decide))
  · obtain ⟨s, hv, hc⟩ := enumOk_shape _ _ hMseg
    rw [Bool.not_eq_true,
      show bookingRowOf body newId "market_segment" = body "market_segment" from rfl, hv]
    exact not_missing_str "market_segment" s (by decide) (by decide)
      (enum_trim_ne MARKET_SEGMENT_ENUM s hc (by decide)) (Or.inl (by decide))
  · obtain ⟨b, hv⟩ := boolOk_shape _ hRepg
    rw [Bool.not_eq_true,
      show bookingRowOf body newId "is_repeated_guest" = body "is_repeated_guest" from rfl, hv]
    exact not_missing_bool "is_repeated_guest" (by decide) b
  · obtain ⟨s, hv, hc⟩ := enumOk_shape _ _ hRoom
    rw [Bool.not_eq_true,
      show bookingRowOf body newId "reserved_room_type" = body "reserved_room_type" from rfl, hv]
    exact not_missing_str "reserved_room_type" s (by decide) (by decide)
      (enum_trim_ne RESERVED_ROOM_ENUM s hc (by decide)) (Or.inl (by decide))
  · obtain ⟨s, hv, hc⟩ := enumOk_shape _ _ hCtype
    rw [Bool.not_eq_true,
      show bookingRowOf body newId "customer_type" = body "customer_type" from rfl, hv]
    exact not_missing_str "customer_type" s (by decide) (by decide)
      (enum_trim_ne CUSTOMER_TYPE_ENUM s hc (by decide)) (Or.inl (by decide))
  · obtain ⟨n, hv⟩ := numOk_shape _ hAdr
    rw [Bool.not_eq_true,
      show bookingRowOf body newId "adr" = body "adr" from rfl, hv]
    exact not_missing_num "adr" (by decide) n
  · obtain ⟨n, hv⟩ := intMinOk_shape _ _ hParking
    rw [Bool.not_eq_true,
      show bookingRowOf body newId "required_car_parking_spaces" =
        body "required_car_parking_spaces" from rfl, hv]
    exact not_missing_num "required_car_parking_spaces" (by decide) n
  · obtain ⟨n, hv⟩ := intMinOk_shape _ _ hReqs
    rw [Bool.not_eq_true,
      show bookingRowOf body newId "total_of_special_requests" =
        body "total_of_special_requests" from rfl, hv]
    exact not_missing_num "total_of_special_requests" (by decide) n
  · obtain ⟨s, hv, hc⟩ := enumOk_shape _ _ hRstat
    rw [Bool.not_eq_true,
      show bookingRowOf body newId "reservation_status" = body "reservation_status" from rfl, hv]
    exact not_missing_str "reservation_status" s (by decide) (by decide)
      (enum_trim_ne RES_STATUS_ENUM s hc (by decide)) (Or.inl (by decide))
  · obtain ⟨s, hv, hc⟩ := dateOk_shape _ hRsd
    rw [Bool.not_eq_true,
      show bookingRowOf body newId "reservation_status_date" =
        body "reservation_status_date" from rfl, hv]
    exact not_missing_str "reservation_status_date" s (by decide) (by decide)
      (dateRegex_trim_ne s hc) (Or.inl (by decide))

/-- A well-formed create payload (meal non-empty, country a real code). -/
def c3wBody : Draft := draftOfList [
  ("hotel", .vStr "City Hotel"),
  ("lead_time", .vNum 5),
  ("arrival_date_year", .vNum 2027),
  ("arrival_date_month", .vStr "August"),
  ("arrival_date_week_number", .vNum 32),
  ("arrival_date_day_of_month", .vNum 10),
  ("stays_in_weekend_nights", .vNum 0),
  ("stays_in_week_nights", .vNum 2),
  ("adults", .vNum 2),
  ("children", .vNum 0),
  ("babies", .vNum 0),
  ("meal", .vStr "BB"),
  ("country", .vStr "ES"),
  ("market_segment", .vStr "Direct"),
  ("is_repeated_guest", .vBool false),
  ("reserved_room_type", .vStr "A"),
  ("customer_type", .vStr "Transient"),
  ("adr", .vNum 100),
  ("required_car_parking_spaces", .vNum 0),
  ("total_of_special_requests", .vNum 0),
  ("reservation_status", .vStr "Checked-In"),
  ("reservation_status_date", .vStr "2027-08-10")
]

/-- C3 witness: the stored row of a concrete well-formed payload round-trips
to an empty missing-field list. -/
theorem c3_create_roundtrip_witness :
    getMissingFields (some (bookingRowOf c3wBody "bk-2")) = [] := by
  apply c3_create_roundtrip c3wBody "bk-2" (bookingRowOf c3wBody "bk-2") rfl (by decide)
  intro s hs
  have h2 : (some (Value.vStr "ES") : Option Value) = some (.vStr s) := hs
  injection h2 with h3
  injection h3 with h4
  rw [← h4]
  decide

end HappyHotels
